import Mathlib

/-!
Shallow embedding of the libra commit bridge:
the state-computation bridge (consensus/src/state_computer.rs), the
state-synchronizer client (state-synchronizer/src/synchronizer.rs) and the
storage request/response conversions (storage/storage_proto/src/lib.rs),
together with theorems settling the specification claims about them.

Effectful Rust code is embedded as pure state passing: the prometheus
counters and gauges become an explicit record of recorded observations, the
awaited futures of the external execution capability become explicit outcome
parameters, and the coordinator mailbox becomes an explicit list of pending
messages.
-/

set_option autoImplicit false

namespace Libra

/-- A signed user transaction; its contents are opaque to the bridge. -/
structure SignedTransaction where
  raw : Nat
deriving DecidableEq, Repr

/-- The transaction enum; the bridge only ever builds the user-transaction variant. -/
inductive Transaction where
  | userTransaction (txn : SignedTransaction)
deriving DecidableEq, Repr

/-- Ledger info; the bridge only reads its version (a u64 ledger position). -/
structure LedgerInfo where
  version : Nat
deriving DecidableEq, Repr

/-- Certified ledger info with signatures (the finality proof). -/
structure LedgerInfoWithSignatures where
  ledger_info : LedgerInfo
deriving DecidableEq, Repr

/-- A quorum certificate; the bridge only reads its certified ledger info. -/
structure QuorumCert where
  ledger_info : LedgerInfoWithSignatures
deriving DecidableEq, Repr

/-- A consensus block: identity, parent identity and an optional payload. -/
structure Block where
  id : Nat
  parent_id : Nat
  payload : Option (List SignedTransaction)
deriving DecidableEq, Repr

/-- Opaque result of speculatively executing one block. -/
structure ProcessedVMOutput where
  tag : Nat
deriving DecidableEq, Repr

/-- Execution summary returned to consensus; one status per transaction. -/
structure StateComputeResult where
  compute_status : List Bool
deriving DecidableEq, Repr

/-- A block ready to be durably committed: transactions plus their output. -/
structure CommittableBlock where
  transactions : List Transaction
  output : ProcessedVMOutput
deriving DecidableEq, Repr

/-- Outcome of awaiting an execution-capability future: the inner result is
itself a Result, so there are two failure shapes (an execution error and an
async/internal error that is converted into the failure domain). -/
inductive ExecOutcome (α : Type) where
  | success (a : α)
  | execErr (msg : String)
  | asyncErr (msg : String)
deriving DecidableEq, Repr

/-- The bridge error domain (failure::Error): either a propagated execution
error or a converted async/internal error. -/
inductive FailureError where
  | exec (msg : String)
  | internal (msg : String)
deriving DecidableEq, Repr

/-- The process-wide metric state touched by the bridge: each duration metric
is the list of recorded observations (in nanoseconds, most recent first), the
last-committed-version gauge is an i64, and the sync-request counter a count. -/
structure Counters where
  empty_block_execution_duration_obs : List Nat
  block_execution_duration_obs : List Nat
  txn_execution_duration_obs : List Nat
  block_commit_duration_obs : List Nat
  last_committed_version : Int
  state_sync_count : Nat
deriving DecidableEq, Repr

/-- u64::try_from on a u128 value: succeeds exactly when the value fits. -/
def u64_try_from (n : Nat) : Option Nat :=
  if n < 2 ^ 64 then some n else none

/-- The Rust cast `v as i64` on a u64 value: bitwise wrapping reinterpretation. -/
def i64_of_u64 (v : Nat) : Int :=
  if v % 2 ^ 64 < 2 ^ 63 then ((v % 2 ^ 64 : Nat) : Int)
  else ((v % 2 ^ 64 : Nat) : Int) - 2 ^ 64

/-- The transaction batch handed to the executor by `compute`: a missing
payload is replaced by the default (empty) payload, and every signed
transaction is wrapped as a user transaction. -/
def block_transactions (block : Block) : List Transaction :=
  (block.payload.getD []).map Transaction.userTransaction

/-- ExecutionProxy::compute. The executor and the measured wall-clock
duration of the execute future are passed explicitly; the function returns
the updated counters and the value the returned future resolves to. -/
def ExecutionProxy.compute
    (execute_block : List Transaction → ExecOutcome (ProcessedVMOutput × StateComputeResult))
    (block : Block) (execution_duration_nanos : Nat) (c : Counters) :
    Counters × Except FailureError (ProcessedVMOutput × StateComputeResult) :=
  match execute_block (block_transactions block) with
  | .success (output, state_compute_result) =>
    let num_txns := state_compute_result.compute_status.length
    if num_txns = 0 then
      ({ c with empty_block_execution_duration_obs :=
          execution_duration_nanos :: c.empty_block_execution_duration_obs },
        .ok (output, state_compute_result))
    else
      let c1 := { c with block_execution_duration_obs :=
          execution_duration_nanos :: c.block_execution_duration_obs }
      match u64_try_from (execution_duration_nanos / num_txns) with
      | some nanos_per_txn =>
        ({ c1 with txn_execution_duration_obs :=
            nanos_per_txn :: c1.txn_execution_duration_obs },
          .ok (output, state_compute_result))
      | none => (c1, .ok (output, state_compute_result))
  | .execErr e => (c, .error (.exec e))
  | .asyncErr e => (c, .error (.internal e))

/-- The committable-block list `commit` reconstructs from its
(payload, output) pairs. -/
def committable_blocks_of
    (payload_and_output_list : List (List SignedTransaction × ProcessedVMOutput)) :
    List CommittableBlock :=
  payload_and_output_list.map fun payload_and_output =>
    ⟨payload_and_output.1.map Transaction.userTransaction, payload_and_output.2⟩

/-- Everything a `commit` call produces: the updated counters, the error
messages it logged, and the value its future resolves to. -/
structure CommitEffects where
  counters : Counters
  logs : List String
  result : Except FailureError Unit
deriving Repr

/-- ExecutionProxy::commit. The executor's commit entry point, the
synchronizer notification and the measured commit duration are passed
explicitly. Note the last-committed-version gauge is set before the commit
future is awaited. -/
def ExecutionProxy.commit
    (commit_blocks : List CommittableBlock → LedgerInfoWithSignatures → ExecOutcome Unit)
    (synchronizer_commit : Nat → Except String Unit)
    (payload_and_output_list : List (List SignedTransaction × ProcessedVMOutput))
    (finality_proof : LedgerInfoWithSignatures)
    (commit_duration_nanos : Nat) (c : Counters) : CommitEffects :=
  let version := finality_proof.ledger_info.version
  let c0 := { c with last_committed_version := i64_of_u64 version }
  match commit_blocks (committable_blocks_of payload_and_output_list) finality_proof with
  | .success _ =>
    let c1 := { c0 with block_commit_duration_obs :=
        commit_duration_nanos :: c0.block_commit_duration_obs }
    match synchronizer_commit version with
    | .ok _ => { counters := c1, logs := [], result := .ok () }
    | .error e =>
      { counters := c1
        logs := ["failed to notify state synchronizer: " ++ e]
        result := .ok () }
  | .execErr e => { counters := c0, logs := [], result := .error (.exec e) }
  | .asyncErr e => { counters := c0, logs := [], result := .error (.internal e) }

/-- ExecutionProxy::sync_to: bump the sync-request counter, then forward the
quorum certificate's certified ledger info to the synchronizer client and
return its future unchanged. -/
def ExecutionProxy.sync_to
    (synchronizer_sync_to : LedgerInfoWithSignatures → Except String Bool)
    (commit : QuorumCert) (c : Counters) : Counters × Except String Bool :=
  ({ c with state_sync_count := c.state_sync_count + 1 },
    synchronizer_sync_to commit.ledger_info)

/-- A message on the coordinator mailbox (CoordinatorMessage): a sync request
with a reply channel, a commit notification, or a state query with a reply
channel. Reply channels are modelled outside the message. -/
inductive CoordinatorMessage where
  | requested (target : LedgerInfoWithSignatures)
  | commit (version : Nat)
  | getState
deriving DecidableEq, Repr

/-- The observable state of the synchronizer from the client side: the
pending messages in the unbounded mailbox (FIFO, oldest first), whether the
mailbox has been closed by the coordinator terminating, and the version the
coordinator has recorded so far. -/
structure SyncState where
  mailbox : List CoordinatorMessage
  closed : Bool
  synced_version : Nat
deriving DecidableEq, Repr

/-- The fate of a one-shot reply channel: fulfilled with a value by the
coordinator, or dropped before fulfillment. -/
inductive ReplyOutcome (α : Type) where
  | fulfilled (a : α)
  | dropped
deriving DecidableEq, Repr

/-- StateSyncClient::sync_to: send Requested(target, reply) into the mailbox
(failing if it is closed), then await the one-shot reply. -/
def StateSyncClient.sync_to (target : LedgerInfoWithSignatures) (s : SyncState)
    (reply : ReplyOutcome Bool) : SyncState × Except String Bool :=
  if s.closed then (s, .error "send error: coordinator mailbox closed")
  else
    let s1 := { s with mailbox := s.mailbox ++ [CoordinatorMessage.requested target] }
    match reply with
    | .dropped => (s1, .error "oneshot reply dropped before fulfillment")
    | .fulfilled sync_status => (s1, .ok sync_status)

/-- StateSyncClient::commit: send Commit(version) into the mailbox and
resolve immediately with success; no reply is awaited. -/
def StateSyncClient.commit (version : Nat) (s : SyncState) :
    SyncState × Except String Unit :=
  if s.closed then (s, .error "send error: coordinator mailbox closed")
  else ({ s with mailbox := s.mailbox ++ [CoordinatorMessage.commit version] }, .ok ())

/-- StateSyncClient::get_state: send GetState(reply) into the mailbox
(failing if it is closed), then await the one-shot reply. -/
def StateSyncClient.get_state (s : SyncState) (reply : ReplyOutcome Nat) :
    SyncState × Except String Nat :=
  if s.closed then (s, .error "send error: coordinator mailbox closed")
  else
    let s1 := { s with mailbox := s.mailbox ++ [CoordinatorMessage.getState] }
    match reply with
    | .dropped => (s1, .error "oneshot reply dropped before fulfillment")
    | .fulfilled info => (s1, .ok info)

/-- Outcome of one catch-up attempt performed by the coordinator. -/
inductive SyncOutcome where
  | success
  | failure
deriving DecidableEq, Repr

/-- A reply the coordinator sends while processing one command: a boolean
for a sync request, a version for a state query, or nothing. -/
inductive CommandReply where
  | syncRan (b : Bool)
  | state (v : Nat)
  | noReply
deriving DecidableEq, Repr

/-- Modelled from the spec: the SyncCoordinator implementation
(state-synchronizer coordinator module) is not among the provided sources;
section 4.2 fixes its command contract. RequestSync(target) replies false
when the current version already meets or exceeds the target version and
otherwise performs a catch-up, updating the synced version to the target on
success and replying true, leaving the version unchanged (reply dropped or
explicit failure) when the catch-up fails; NotifyCommit(v) unconditionally
advances the synced version to max(current, v) with no reply; QueryState
reports the current version. The catch-up outcome is passed explicitly. -/
def process_command (current : Nat) (cmd : CoordinatorMessage)
    (catch_up : SyncOutcome) : Nat × CommandReply :=
  match cmd with
  | .requested target =>
    if target.ledger_info.version ≤ current then (current, .syncRan false)
    else
      match catch_up with
      | .success => (target.ledger_info.version, .syncRan true)
      | .failure => (current, .noReply)
  | .commit v => (max current v, .noReply)
  | .getState => (current, .state current)

/-- Process a sequence of commands in mailbox order, threading the
coordinator's synced-version state; each command carries the outcome of the
catch-up attempt it would trigger. -/
def process_commands (current : Nat)
    (cmds : List (CoordinatorMessage × SyncOutcome)) : Nat :=
  cmds.foldl (fun v cs => (process_command v cs.1 cs.2).1) current

/-- A transaction to commit, as stored in a SaveTransactionsRequest; its
contents are opaque to the storage-proto layer. -/
structure TransactionToCommit where
  data : Nat
deriving DecidableEq, Repr

/-- Modelled from the spec: the wire form and conversions of
TransactionToCommit live in the types crate, outside the provided sources.
Section 6 requires such conversions to be total and round-trip-safe for
valid inputs and to reject malformed inputs with a descriptive error, so the
wire form is either a faithful encoding of a value or a malformed message. -/
inductive ProtoTransactionToCommit where
  | valid (txn : TransactionToCommit)
  | malformed (msg : String)
deriving DecidableEq, Repr

/-- Encoding of a TransactionToCommit to its wire form (always valid). -/
def TransactionToCommit.into_proto (t : TransactionToCommit) :
    ProtoTransactionToCommit :=
  .valid t

/-- Decoding of a wire TransactionToCommit; malformed input is rejected
with a descriptive error. -/
def ProtoTransactionToCommit.try_from :
    ProtoTransactionToCommit → Except String TransactionToCommit
  | .valid t => .ok t
  | .malformed msg => .error ("malformed TransactionToCommit: " ++ msg)

/-- Modelled from the spec: likewise, the wire form and conversions of
LedgerInfoWithSignatures live outside the provided sources; the same
round-trip-safe / reject-malformed contract applies. -/
inductive ProtoLedgerInfoWithSignatures where
  | valid (li : LedgerInfoWithSignatures)
  | malformed (msg : String)
deriving DecidableEq, Repr

/-- Encoding of a LedgerInfoWithSignatures to its wire form. -/
def LedgerInfoWithSignatures.into_proto (li : LedgerInfoWithSignatures) :
    ProtoLedgerInfoWithSignatures :=
  .valid li

/-- Decoding of a wire LedgerInfoWithSignatures. -/
def ProtoLedgerInfoWithSignatures.try_from :
    ProtoLedgerInfoWithSignatures → Except String LedgerInfoWithSignatures
  | .valid li => .ok li
  | .malformed msg => .error ("malformed LedgerInfoWithSignatures: " ++ msg)

/-- The Rust collect over an iterator of Results: the first error aborts the
whole conversion, otherwise the list of successes is returned. -/
def collect_results {α β : Type} (f : α → Except String β) :
    List α → Except String (List β)
  | [] => .ok []
  | x :: xs =>
    match f x with
    | .error e => .error e
    | .ok y =>
      match collect_results f xs with
      | .error e => .error e
      | .ok ys => .ok (y :: ys)

/-- The Rust map-then-transpose over an Option of a fallible conversion. -/
def transpose_option {α β : Type} (f : α → Except String β) :
    Option α → Except String (Option β)
  | none => .ok none
  | some x =>
    match f x with
    | .error e => .error e
    | .ok y => .ok (some y)

/-- In-memory SaveTransactionsRequest. -/
structure SaveTransactionsRequest where
  txns_to_commit : List TransactionToCommit
  first_version : Nat
  ledger_info_with_signatures : Option LedgerInfoWithSignatures
deriving DecidableEq, Repr

/-- Wire-form SaveTransactionsRequest. -/
structure ProtoSaveTransactionsRequest where
  txns_to_commit : List ProtoTransactionToCommit
  first_version : Nat
  ledger_info_with_signatures : Option ProtoLedgerInfoWithSignatures
deriving DecidableEq, Repr

/-- From<SaveTransactionsRequest> for the wire form: field-by-field
encoding. -/
def SaveTransactionsRequest.into_proto (request : SaveTransactionsRequest) :
    ProtoSaveTransactionsRequest :=
  { txns_to_commit := request.txns_to_commit.map TransactionToCommit.into_proto
    first_version := request.first_version
    ledger_info_with_signatures :=
      request.ledger_info_with_signatures.map LedgerInfoWithSignatures.into_proto }

/-- TryFrom the wire form: decode every transaction (first failure aborts),
transpose the optional ledger info, and rebuild the struct. -/
def SaveTransactionsRequest.try_from (proto : ProtoSaveTransactionsRequest) :
    Except String SaveTransactionsRequest :=
  match collect_results ProtoTransactionToCommit.try_from proto.txns_to_commit with
  | .error e => .error e
  | .ok txns_to_commit =>
    match transpose_option ProtoLedgerInfoWithSignatures.try_from
        proto.ledger_info_with_signatures with
    | .error e => .error e
    | .ok ledger_info_with_signatures =>
      .ok { txns_to_commit
            first_version := proto.first_version
            ledger_info_with_signatures }

/-- In-memory GetTransactionsRequest. -/
structure GetTransactionsRequest where
  start_version : Nat
  batch_size : Nat
  ledger_version : Nat
  fetch_events : Bool
deriving DecidableEq, Repr

/-- Wire-form GetTransactionsRequest: the same four scalar fields. -/
structure ProtoGetTransactionsRequest where
  start_version : Nat
  batch_size : Nat
  ledger_version : Nat
  fetch_events : Bool
deriving DecidableEq, Repr

/-- From<GetTransactionsRequest> for the wire form. -/
def GetTransactionsRequest.into_proto (request : GetTransactionsRequest) :
    ProtoGetTransactionsRequest :=
  { start_version := request.start_version
    batch_size := request.batch_size
    ledger_version := request.ledger_version
    fetch_events := request.fetch_events }

/-- TryFrom the wire form: field-by-field, always succeeds. -/
def GetTransactionsRequest.try_from (proto : ProtoGetTransactionsRequest) :
    Except String GetTransactionsRequest :=
  .ok { start_version := proto.start_version
        batch_size := proto.batch_size
        ledger_version := proto.ledger_version
        fetch_events := proto.fetch_events }

/-- Counters with nothing recorded yet: the state at process start. -/
def Counters.init : Counters :=
  { empty_block_execution_duration_obs := []
    block_execution_duration_obs := []
    txn_execution_duration_obs := []
    block_commit_duration_obs := []
    last_committed_version := 0
    state_sync_count := 0 }

/-- Claim C1, counterexample: a commit call whose underlying durable commit
fails nevertheless updates the last-committed-version gauge to the finality
proof's version (7), refuting the claim that on a failed commit the gauge is
not updated by that call. -/
theorem commit_gauge_set_on_failed_commit :
    (ExecutionProxy.commit (fun _ _ => ExecOutcome.execErr "db write failed")
        (fun _ => Except.ok ()) [] ⟨⟨7⟩⟩ 5 Counters.init).result
      = Except.error (FailureError.exec "db write failed")
    ∧ (ExecutionProxy.commit (fun _ _ => ExecOutcome.execErr "db write failed")
        (fun _ => Except.ok ()) [] ⟨⟨7⟩⟩ 5 Counters.init).counters.last_committed_version
      = 7
    ∧ Counters.init.last_committed_version ≠ 7 := by
  refine ⟨rfl, ?_, by decide⟩
  show i64_of_u64 7 = 7
  decide

/-- Claim C1, amended: on every commit call the last-committed-version gauge
is set, unconditionally and before the durable commit is awaited, to the
finality proof's ledger version cast to a signed 64-bit integer (the
identity for versions below 2^63), regardless of the outcome of the
underlying commit and of how many (payload, output) pairs were batched,
including zero. -/
theorem commit_sets_last_committed_version_gauge
    (commit_blocks : List CommittableBlock → LedgerInfoWithSignatures → ExecOutcome Unit)
    (synchronizer_commit : Nat → Except String Unit)
    (payload_and_output_list : List (List SignedTransaction × ProcessedVMOutput))
    (finality_proof : LedgerInfoWithSignatures)
    (commit_duration_nanos : Nat) (c : Counters) :
    (ExecutionProxy.commit commit_blocks synchronizer_commit payload_and_output_list
        finality_proof commit_duration_nanos c).counters.last_committed_version
      = i64_of_u64 finality_proof.ledger_info.version
    ∧ (finality_proof.ledger_info.version < 2 ^ 63 →
        (ExecutionProxy.commit commit_blocks synchronizer_commit payload_and_output_list
            finality_proof commit_duration_nanos c).counters.last_committed_version
          = (finality_proof.ledger_info.version : Int)) := by
  have hgauge :
      (ExecutionProxy.commit commit_blocks synchronizer_commit payload_and_output_list
          finality_proof commit_duration_nanos c).counters.last_committed_version
        = i64_of_u64 finality_proof.ledger_info.version := by
    unfold ExecutionProxy.commit
    rcases commit_blocks (committable_blocks_of payload_and_output_list) finality_proof with
      _ | e | e
    · rcases h2 : synchronizer_commit finality_proof.ledger_info.version with _ | e2 <;>
        simp [h2]
    · rfl
    · rfl
  refine ⟨hgauge, fun hv => ?_⟩
  rw [hgauge]
  unfold i64_of_u64
  have hlt : finality_proof.ledger_info.version < 2 ^ 64 :=
    lt_trans hv (by norm_num)
  rw [Nat.mod_eq_of_lt hlt, if_pos hv]

/-- Claim C1 amended theorem, witness: an instantiation at version 7 with a
failing underlying commit; the gauge reads exactly 7. -/
theorem commit_sets_last_committed_version_gauge_witness :
    (ExecutionProxy.commit (fun _ _ => ExecOutcome.execErr "boom")
        (fun _ => Except.ok ()) [] ⟨⟨7⟩⟩ 5 Counters.init).counters.last_committed_version
      = (7 : Int) :=
  (commit_sets_last_committed_version_gauge (fun _ _ => ExecOutcome.execErr "boom")
    (fun _ => Except.ok ()) [] ⟨⟨7⟩⟩ 5 Counters.init).2 (by decide)

/-- Claim C2: when the underlying durable commit succeeds, the commit call
resolves with success no matter what the synchronizer notification returns;
a notification failure is only logged (one error line), never propagated. -/
theorem commit_ok_despite_notify_failure
    (commit_blocks : List CommittableBlock → LedgerInfoWithSignatures → ExecOutcome Unit)
    (synchronizer_commit : Nat → Except String Unit)
    (payload_and_output_list : List (List SignedTransaction × ProcessedVMOutput))
    (finality_proof : LedgerInfoWithSignatures)
    (commit_duration_nanos : Nat) (c : Counters)
    (h : commit_blocks (committable_blocks_of payload_and_output_list) finality_proof
        = ExecOutcome.success ()) :
    (ExecutionProxy.commit commit_blocks synchronizer_commit payload_and_output_list
        finality_proof commit_duration_nanos c).result = Except.ok ()
    ∧ (∀ e, synchronizer_commit finality_proof.ledger_info.version = Except.error e →
        (ExecutionProxy.commit commit_blocks synchronizer_commit payload_and_output_list
            finality_proof commit_duration_nanos c).logs
          = ["failed to notify state synchronizer: " ++ e]) := by
  unfold ExecutionProxy.commit
  rcases h2 : synchronizer_commit finality_proof.ledger_info.version with e0 | u0
  · refine ⟨by simp [h, h2], ?_⟩
    intro e he
    cases he
    simp [h, h2]
  · refine ⟨by simp [h, h2], ?_⟩
    intro e he
    cases he

/-- Claim C3: processing NotifyCommit(v) sets the coordinator's recorded
synced version to max(current, v); after NotifyCommit(v1) then
NotifyCommit(v2) with v2 < v1 (starting at or below v1) the recorded version
is exactly v1; and no command processing ever decreases the recorded
version. -/
theorem coordinator_synced_version_monotone :
    (∀ (current v : Nat) (catch_up : SyncOutcome),
        (process_command current (CoordinatorMessage.commit v) catch_up).1 = max current v)
    ∧ (∀ (current v1 v2 : Nat) (o1 o2 : SyncOutcome), v2 < v1 → current ≤ v1 →
        process_commands current
          [(CoordinatorMessage.commit v1, o1), (CoordinatorMessage.commit v2, o2)] = v1)
    ∧ (∀ (current : Nat) (cmd : CoordinatorMessage) (catch_up : SyncOutcome),
        current ≤ (process_command current cmd catch_up).1) := by
  refine ⟨fun current v catch_up => rfl, ?_, ?_⟩
  · intro current v1 v2 o1 o2 h21 hc1
    show max (max current v1) v2 = v1
    omega
  · intro current cmd catch_up
    rcases cmd with target | v | _
    · unfold process_command
      by_cases hle : target.ledger_info.version ≤ current
      · simp [hle]
      · cases catch_up
        · simp [hle]
          omega
        · simp [hle]
    · exact Nat.le_max_left _ _
    · exact le_refl _

/-- Claim C3, witness: starting from version 0, NotifyCommit(5) then
NotifyCommit(3) leaves the recorded version at 5. -/
theorem coordinator_synced_version_monotone_witness :
    process_commands 0
      [(CoordinatorMessage.commit 5, SyncOutcome.success),
        (CoordinatorMessage.commit 3, SyncOutcome.success)] = 5 :=
  coordinator_synced_version_monotone.2.1 0 5 3 SyncOutcome.success SyncOutcome.success
    (by decide) (by decide)

/-- Claim C4: on every successful compute call exactly one block-level
elapsed-time observation is recorded, in the empty-block bucket when the
compute result's status count is zero and in the block-execution bucket
otherwise, never both; and an absent payload is executed as a
zero-transaction batch rather than rejected. -/
theorem compute_timing_classification
    (execute_block : List Transaction → ExecOutcome (ProcessedVMOutput × StateComputeResult))
    (block : Block) (d : Nat) (c : Counters)
    (output : ProcessedVMOutput) (scr : StateComputeResult)
    (h : execute_block (block_transactions block) = ExecOutcome.success (output, scr)) :
    (ExecutionProxy.compute execute_block block d c).2 = Except.ok (output, scr)
    ∧ (scr.compute_status.length = 0 →
        (ExecutionProxy.compute execute_block block d c).1.empty_block_execution_duration_obs
            = d :: c.empty_block_execution_duration_obs
        ∧ (ExecutionProxy.compute execute_block block d c).1.block_execution_duration_obs
            = c.block_execution_duration_obs)
    ∧ (scr.compute_status.length ≠ 0 →
        (ExecutionProxy.compute execute_block block d c).1.block_execution_duration_obs
            = d :: c.block_execution_duration_obs
        ∧ (ExecutionProxy.compute execute_block block d c).1.empty_block_execution_duration_obs
            = c.empty_block_execution_duration_obs)
    ∧ (block.payload = none → block_transactions block = []) := by
  unfold ExecutionProxy.compute
  rw [h]
  refine ⟨?_, ?_, ?_, fun hp => by simp [block_transactions, hp]⟩
  · by_cases hn : scr.compute_status.length = 0
    · simp [hn]
    · rcases h4 : u64_try_from (d / scr.compute_status.length) with _ | npt <;> simp [hn, h4]
  · intro hn
    simp [hn]
  · intro hn
    rcases h4 : u64_try_from (d / scr.compute_status.length) with _ | npt <;> simp [hn, h4]

/-- Claim C4, witness: executing a block with an absent payload, where the
executor reports zero transaction statuses, records one empty-block
observation and no block-execution observation. -/
theorem compute_timing_classification_witness :
    (ExecutionProxy.compute (fun _ => ExecOutcome.success (⟨0⟩, ⟨[]⟩)) ⟨1, 0, none⟩ 9
        Counters.init).1.empty_block_execution_duration_obs = [9]
    ∧ (ExecutionProxy.compute (fun _ => ExecOutcome.success (⟨0⟩, ⟨[]⟩)) ⟨1, 0, none⟩ 9
        Counters.init).1.block_execution_duration_obs = [] :=
  (compute_timing_classification (fun _ => ExecOutcome.success (⟨0⟩, ⟨[]⟩))
    ⟨1, 0, none⟩ 9 Counters.init ⟨0⟩ ⟨[]⟩ rfl).2.1 rfl

/-- Claim C5: on every successful compute call with a nonzero status count n,
the recorded per-transaction observation equals the block duration in
nanoseconds divided by n (integer division) whenever that quotient fits in
an unsigned 64-bit value; when it does not fit, the observation is skipped
and the call still succeeds; when n is zero no per-transaction observation
is recorded. -/
theorem compute_per_txn_observation
    (execute_block : List Transaction → ExecOutcome (ProcessedVMOutput × StateComputeResult))
    (block : Block) (d : Nat) (c : Counters)
    (output : ProcessedVMOutput) (scr : StateComputeResult)
    (h : execute_block (block_transactions block) = ExecOutcome.success (output, scr)) :
    (scr.compute_status.length = 0 →
        (ExecutionProxy.compute execute_block block d c).1.txn_execution_duration_obs
          = c.txn_execution_duration_obs)
    ∧ (scr.compute_status.length ≠ 0 → d / scr.compute_status.length < 2 ^ 64 →
        (ExecutionProxy.compute execute_block block d c).1.txn_execution_duration_obs
          = d / scr.compute_status.length :: c.txn_execution_duration_obs)
    ∧ (scr.compute_status.length ≠ 0 → 2 ^ 64 ≤ d / scr.compute_status.length →
        (ExecutionProxy.compute execute_block block d c).1.txn_execution_duration_obs
          = c.txn_execution_duration_obs
        ∧ (ExecutionProxy.compute execute_block block d c).2 = Except.ok (output, scr)) := by
  unfold ExecutionProxy.compute
  rw [h]
  refine ⟨fun hn => by simp [hn], fun hn hfit => ?_, fun hn hover => ?_⟩
  · have h4 : u64_try_from (d / scr.compute_status.length)
        = some (d / scr.compute_status.length) := by
      unfold u64_try_from
      rw [if_pos hfit]
    simp [hn, h4]
  · have h4 : u64_try_from (d / scr.compute_status.length) = none := by
      unfold u64_try_from
      rw [if_neg (Nat.not_lt.mpr hover)]
    constructor <;> simp [hn, h4]

/-- Claim C5, witness: a 2-transaction block with a 10ns duration records a
5ns per-transaction observation; a 1-transaction block whose duration
quotient (2^70) exceeds the u64 range records none, without failing. -/
theorem compute_per_txn_observation_witness :
    (ExecutionProxy.compute (fun _ => ExecOutcome.success (⟨0⟩, ⟨[true, true]⟩)) ⟨1, 0, none⟩ 10
        Counters.init).1.txn_execution_duration_obs = [5]
    ∧ (ExecutionProxy.compute (fun _ => ExecOutcome.success (⟨0⟩, ⟨[true]⟩)) ⟨1, 0, none⟩
        (2 ^ 70) Counters.init).1.txn_execution_duration_obs = []
    ∧ (ExecutionProxy.compute (fun _ => ExecOutcome.success (⟨0⟩, ⟨[true]⟩)) ⟨1, 0, none⟩
        (2 ^ 70) Counters.init).2 = Except.ok (⟨0⟩, ⟨[true]⟩) := by
  have h1 := compute_per_txn_observation (fun _ => ExecOutcome.success (⟨0⟩, ⟨[true, true]⟩))
    ⟨1, 0, none⟩ 10 Counters.init ⟨0⟩ ⟨[true, true]⟩ rfl
  have h2 := compute_per_txn_observation (fun _ => ExecOutcome.success (⟨0⟩, ⟨[true]⟩))
    ⟨1, 0, none⟩ (2 ^ 70) Counters.init ⟨0⟩ ⟨[true]⟩ rfl
  have hover : 2 ^ 64 ≤ 2 ^ 70 / ([true] : List Bool).length := by norm_num
  refine ⟨?_, (h2.2.2 (by decide) hover).1, (h2.2.2 (by decide) hover).2⟩
  have hfit := h1.2.1 (by decide) (by norm_num)
  rw [hfit]
  decide

/-- Claim C6: every sync_to call increments the sync-requested counter by
exactly one and changes nothing else in the counters, forwards the quorum
certificate's certified ledger info unchanged to the synchronizer client,
and returns the client's boolean result without modification. -/
theorem sync_to_counter_and_forwarding
    (synchronizer_sync_to : LedgerInfoWithSignatures → Except String Bool)
    (commit : QuorumCert) (c : Counters) :
    (ExecutionProxy.sync_to synchronizer_sync_to commit c).1
        = { c with state_sync_count := c.state_sync_count + 1 }
    ∧ (ExecutionProxy.sync_to synchronizer_sync_to commit c).2
        = synchronizer_sync_to commit.ledger_info :=
  ⟨rfl, rfl⟩

/-- Claim C7: both reply-awaiting client operations (sync_to and get_state)
resolve to an error whenever the coordinator mailbox is closed at send time
or the one-shot reply is dropped before fulfillment, and when a reply does
arrive they resolve to success carrying exactly the value the coordinator
sent. -/
theorem client_reply_semantics (target : LedgerInfoWithSignatures) (s : SyncState) :
    (s.closed = true →
        (∀ r, ∃ e, (StateSyncClient.sync_to target s r).2 = Except.error e)
        ∧ (∀ r, ∃ e, (StateSyncClient.get_state s r).2 = Except.error e))
    ∧ (s.closed = false →
        (∃ e, (StateSyncClient.sync_to target s ReplyOutcome.dropped).2 = Except.error e)
        ∧ (∃ e, (StateSyncClient.get_state s ReplyOutcome.dropped).2 = Except.error e)
        ∧ (∀ b, (StateSyncClient.sync_to target s (ReplyOutcome.fulfilled b)).2 = Except.ok b)
        ∧ (∀ v, (StateSyncClient.get_state s (ReplyOutcome.fulfilled v)).2 = Except.ok v)) := by
  constructor
  · intro hc
    constructor
    · intro r
      exact ⟨"send error: coordinator mailbox closed", by simp [StateSyncClient.sync_to, hc]⟩
    · intro r
      exact ⟨"send error: coordinator mailbox closed", by simp [StateSyncClient.get_state, hc]⟩
  · intro hc
    refine ⟨⟨"oneshot reply dropped before fulfillment",
        by simp [StateSyncClient.sync_to, hc]⟩,
      ⟨"oneshot reply dropped before fulfillment",
        by simp [StateSyncClient.get_state, hc]⟩,
      fun b => by simp [StateSyncClient.sync_to, hc],
      fun v => by simp [StateSyncClient.get_state, hc]⟩

/-- Claim C7, witness: with a live coordinator, a fulfilled sync_to reply
carries exactly the sent boolean, and a dropped get_state reply resolves to
an error. -/
theorem client_reply_semantics_witness :
    (StateSyncClient.sync_to ⟨⟨4⟩⟩ ⟨[], false, 0⟩ (ReplyOutcome.fulfilled true)).2
      = Except.ok true
    ∧ (∃ e, (StateSyncClient.get_state ⟨[], false, 0⟩ ReplyOutcome.dropped).2
        = Except.error e) :=
  ⟨((client_reply_semantics ⟨⟨4⟩⟩ ⟨[], false, 0⟩).2 rfl).2.2.1 true,
    ((client_reply_semantics ⟨⟨4⟩⟩ ⟨[], false, 0⟩).2 rfl).2.1⟩

/-- Claim C9: when the coordinator mailbox is open, the client's commit call
resolves with success as soon as Commit(version) is enqueued: the message is
appended to the mailbox, no reply is awaited, and the coordinator's recorded
synced version is unchanged by the call itself. -/
theorem client_commit_fire_and_forget (version : Nat) (s : SyncState)
    (h : s.closed = false) :
    (StateSyncClient.commit version s).2 = Except.ok ()
    ∧ (StateSyncClient.commit version s).1.mailbox
        = s.mailbox ++ [CoordinatorMessage.commit version]
    ∧ (StateSyncClient.commit version s).1.synced_version = s.synced_version := by
  refine ⟨?_, ?_, ?_⟩ <;> simp [StateSyncClient.commit, h]

/-- Claim C9, witness: committing version 9 into an open, empty mailbox with
recorded version 5 resolves with success, leaves the message pending, and
leaves the recorded version at 5. -/
theorem client_commit_fire_and_forget_witness :
    (StateSyncClient.commit 9 ⟨[], false, 5⟩).2 = Except.ok ()
    ∧ (StateSyncClient.commit 9 ⟨[], false, 5⟩).1.mailbox = [CoordinatorMessage.commit 9]
    ∧ (StateSyncClient.commit 9 ⟨[], false, 5⟩).1.synced_version = 5 := by
  have h := client_commit_fire_and_forget 9 ⟨[], false, 5⟩ rfl
  exact ⟨h.1, by rw [h.2.1]; rfl, h.2.2⟩

/-- Claim C10: when the executor's execute future resolves with a failure of
either shape, compute propagates the corresponding error and returns the
counters exactly as they were: no timing observation of any kind is
recorded on a failure path. -/
theorem compute_failure_frame
    (execute_block : List Transaction → ExecOutcome (ProcessedVMOutput × StateComputeResult))
    (block : Block) (d : Nat) (c : Counters) :
    (∀ e, execute_block (block_transactions block) = ExecOutcome.execErr e →
        ExecutionProxy.compute execute_block block d c
          = (c, Except.error (FailureError.exec e)))
    ∧ (∀ e, execute_block (block_transactions block) = ExecOutcome.asyncErr e →
        ExecutionProxy.compute execute_block block d c
          = (c, Except.error (FailureError.internal e))) := by
  constructor <;> intro e he <;> unfold ExecutionProxy.compute <;> rw [he]

/-- Claim C10, witness: a failing executor leaves the counters untouched and
the error is propagated. -/
theorem compute_failure_frame_witness :
    ExecutionProxy.compute (fun _ => ExecOutcome.execErr "vm fault") ⟨1, 0, none⟩ 9 Counters.init
      = (Counters.init, Except.error (FailureError.exec "vm fault")) :=
  (compute_failure_frame (fun _ => ExecOutcome.execErr "vm fault") ⟨1, 0, none⟩ 9
    Counters.init).1 "vm fault" rfl

/-- Claim C2, witness: a concrete commit whose durable write succeeds and
whose notification fails still resolves with success and logs the failure. -/
theorem commit_ok_despite_notify_failure_witness :
    (ExecutionProxy.commit (fun _ _ => ExecOutcome.success ())
        (fun _ => Except.error "synchronizer down") [] ⟨⟨3⟩⟩ 1 Counters.init).result
      = Except.ok ()
    ∧ (ExecutionProxy.commit (fun _ _ => ExecOutcome.success ())
        (fun _ => Except.error "synchronizer down") [] ⟨⟨3⟩⟩ 1 Counters.init).logs
      = ["failed to notify state synchronizer: synchronizer down"] := by
  have h := commit_ok_despite_notify_failure (fun _ _ => ExecOutcome.success ())
    (fun _ => Except.error "synchronizer down") [] ⟨⟨3⟩⟩ 1 Counters.init rfl
  exact ⟨h.1, h.2 "synchronizer down" rfl⟩

/-- Decoding a list of encoded transactions recovers the original list. -/
theorem collect_results_map_valid (l : List TransactionToCommit) :
    collect_results ProtoTransactionToCommit.try_from
      (l.map TransactionToCommit.into_proto) = Except.ok l := by
  induction l with
  | nil => rfl
  | cons hd tl ih =>
    simp [collect_results, TransactionToCommit.into_proto,
      ProtoTransactionToCommit.try_from, ih]

/-- A malformed element anywhere in a wire list makes the whole collection
fail with an error. -/
theorem collect_results_error_of_mem {l : List ProtoTransactionToCommit} {msg : String}
    (hmem : ProtoTransactionToCommit.malformed msg ∈ l) :
    ∃ e, collect_results ProtoTransactionToCommit.try_from l = Except.error e := by
  induction l with
  | nil => cases hmem
  | cons hd tl ih =>
    rcases List.mem_cons.mp hmem with heq | hmem2
    · cases heq
      exact ⟨"malformed TransactionToCommit: " ++ msg, rfl⟩
    · rcases h2 : ProtoTransactionToCommit.try_from hd with e0 | y
      · exact ⟨e0, by simp [collect_results, h2]⟩
      · obtain ⟨e, he⟩ := ih hmem2
        exact ⟨e, by simp [collect_results, h2, he]⟩

/-- Claim C8: converting an in-memory GetTransactionsRequest or
SaveTransactionsRequest to its wire form and back recovers the original
value, and a wire SaveTransactionsRequest containing a malformed
transaction is rejected with an error instead of panicking. -/
theorem storage_proto_roundtrip :
    (∀ r : GetTransactionsRequest,
        GetTransactionsRequest.try_from r.into_proto = Except.ok r)
    ∧ (∀ r : SaveTransactionsRequest,
        SaveTransactionsRequest.try_from r.into_proto = Except.ok r)
    ∧ (∀ (p : ProtoSaveTransactionsRequest) (msg : String),
        ProtoTransactionToCommit.malformed msg ∈ p.txns_to_commit →
        ∃ e, SaveTransactionsRequest.try_from p = Except.error e) := by
  refine ⟨fun r => rfl, fun r => ?_, fun p msg hmem => ?_⟩
  · rcases r with ⟨txns, fv, li⟩
    rcases li with _ | li0 <;>
      simp [SaveTransactionsRequest.try_from, SaveTransactionsRequest.into_proto,
        collect_results_map_valid, transpose_option, LedgerInfoWithSignatures.into_proto,
        ProtoLedgerInfoWithSignatures.try_from]
  · obtain ⟨e, he⟩ := collect_results_error_of_mem hmem
    exact ⟨e, by simp [SaveTransactionsRequest.try_from, he]⟩

/-- Claim C8, witness: a concrete round trip for each request struct, and a
concrete malformed wire message that is rejected with an error. -/
theorem storage_proto_roundtrip_witness :
    GetTransactionsRequest.try_from (GetTransactionsRequest.into_proto ⟨1, 2, 3, true⟩)
      = Except.ok ⟨1, 2, 3, true⟩
    ∧ SaveTransactionsRequest.try_from
        (SaveTransactionsRequest.into_proto ⟨[⟨7⟩], 4, some ⟨⟨9⟩⟩⟩)
      = Except.ok ⟨[⟨7⟩], 4, some ⟨⟨9⟩⟩⟩
    ∧ (∃ e, SaveTransactionsRequest.try_from
        ⟨[ProtoTransactionToCommit.malformed "bad bytes"], 0, none⟩ = Except.error e) :=
  ⟨storage_proto_roundtrip.1 ⟨1, 2, 3, true⟩,
    storage_proto_roundtrip.2.1 ⟨[⟨7⟩], 4, some ⟨⟨9⟩⟩⟩,
    storage_proto_roundtrip.2.2 ⟨[ProtoTransactionToCommit.malformed "bad bytes"], 0, none⟩
      "bad bytes" (by simp)⟩

end Libra
